import Mathlib

/-!
Verification of the training driver `egs/washington/steps/train_ctc.py`.

The script's checkpoint hook, early-stop trigger wiring, checkpoint
load/save logic and final save are embedded shallowly below.  Metric
values (floats in the source) are modelled as rationals; the hook's
`float('inf')` initial record is modelled as `⊤ : WithTop ℚ`.
-/

/-- The kind of object passed as `caller` to a hook.  `SaveModelCheckpointHook.__call__`
asserts `isinstance(caller, laia.engine.Trainer)`; any non-`Trainer` caller is `other`. -/
inductive CallerKind where
  | trainer : CallerKind
  | other : CallerKind
deriving DecidableEq

namespace SaveModelCheckpointHook

/-- The initial value of `self._lowest`: `float('inf')`. -/
def lowestInit : WithTop ℚ := ⊤

/-- The guarded body of `SaveModelCheckpointHook.__call__` (lines 41-45):
`if self._meter.value < self._lowest:` update `self._lowest` and save; otherwise
do nothing.  Returns the new `_lowest` record and whether the checkpoint file
was written on this invocation. -/
def step (lowest : WithTop ℚ) (v : ℚ) : WithTop ℚ × Bool :=
  if (v : WithTop ℚ) < lowest then (v, true) else (lowest, false)

/-- `SaveModelCheckpointHook.__call__` (lines 39-45): first the assertion
`assert isinstance(caller, laia.engine.Trainer)`, then the guarded update.
A failed assertion (`AssertionError`) is the `Except.error` outcome: it occurs
before the metric is read, the record updated, or any file written. -/
def call (caller : CallerKind) (lowest : WithTop ℚ) (v : ℚ) :
    Except Unit (WithTop ℚ × Bool) :=
  match caller with
  | CallerKind.trainer => Except.ok (step lowest v)
  | CallerKind.other => Except.error ()

/-- The `_lowest` record after a sequence of invocations (with `Trainer`
callers) observing the metric values `vs` in order, starting from `lowest`. -/
def runLowest (lowest : WithTop ℚ) (vs : List ℚ) : WithTop ℚ :=
  vs.foldl (fun l v => (step l v).1) lowest

theorem step_fst (l : WithTop ℚ) (v : ℚ) : (step l v).1 = min (v : WithTop ℚ) l := by
  rcases lt_or_ge (v : WithTop ℚ) l with h | h
  · simp [step, h, min_eq_left h.le]
  · simp [step, not_lt.mpr h, min_eq_right h]

theorem runLowest_eq_min (l : WithTop ℚ) (vs : List ℚ) :
    runLowest l vs = min l vs.minimum := by
  induction vs generalizing l with
  | nil => simp [runLowest, List.minimum_nil]
  | cons v vs ih =>
      have : runLowest l (v :: vs) = runLowest (step l v).1 vs := rfl
      rw [this, ih, step_fst, List.minimum_cons, min_comm (v : WithTop ℚ) l, min_assoc]

theorem runLowest_append (l : WithTop ℚ) (us ts : List ℚ) :
    runLowest l (us ++ ts) = runLowest (runLowest l us) ts := by
  simp [runLowest, List.foldl_append]

theorem runLowest_init (vs : List ℚ) : runLowest lowestInit vs = vs.minimum := by
  rw [runLowest_eq_min]
  exact min_eq_right le_top

theorem lt_minimum_iff (v : ℚ) (vs : List ℚ) :
    (v : WithTop ℚ) < vs.minimum ↔ ∀ u ∈ vs, v < u := by
  induction vs with
  | nil => simp [List.minimum_nil, WithTop.coe_lt_top]
  | cons u vs ih =>
      rw [List.minimum_cons, lt_min_iff, ih]
      simp [WithTop.coe_lt_coe]

/-- C1: across invocations of `SaveModelCheckpointHook`, the recorded `_lowest`
value (initialized to `+∞`) is non-increasing over time, and after any sequence
of observed metric values it equals the running minimum of all values observed
so far. -/
theorem claim1_lowest_running_min (us vs : List ℚ) (h : us <+: vs) :
    runLowest lowestInit vs ≤ runLowest lowestInit us ∧
      runLowest lowestInit vs = vs.minimum := by
  obtain ⟨ts, rfl⟩ := h
  refine ⟨?_, runLowest_init _⟩
  rw [runLowest_append, runLowest_eq_min]
  exact min_le_left _ _

/-- Witness for C1 at a concrete prefix pair. -/
theorem claim1_lowest_running_min_witness :
    runLowest lowestInit [(1 : ℚ)/2, 1/4] ≤ runLowest lowestInit [(1 : ℚ)/2] ∧
      runLowest lowestInit [(1 : ℚ)/2, 1/4] = ([(1 : ℚ)/2, 1/4]).minimum :=
  claim1_lowest_running_min [(1 : ℚ)/2] [(1 : ℚ)/2, 1/4] ⟨[(1 : ℚ)/4], rfl⟩

/-- C2: after the hook has observed the values `vs`, the next invocation with
value `v` writes the checkpoint file iff `v` is strictly below every previously
seen value; otherwise (ties included) the invocation writes nothing and leaves
the `_lowest` record unchanged. -/
theorem claim2_save_iff_strict_improvement (vs : List ℚ) (v : ℚ) :
    ((step (runLowest lowestInit vs) v).2 = true ↔ ∀ u ∈ vs, v < u) ∧
      ((¬ ∀ u ∈ vs, v < u) →
        step (runLowest lowestInit vs) v = (runLowest lowestInit vs, false)) := by
  constructor
  · rw [runLowest_init]
    constructor
    · intro hw
      by_contra hnot
      rw [← lt_minimum_iff] at hnot
      simp [step, hnot] at hw
    · intro hall
      rw [← lt_minimum_iff] at hall
      simp [step, hall]
  · intro hnot
    rw [runLowest_init] at *
    rw [← lt_minimum_iff] at hnot
    simp [step, hnot]

/-- Witness for C2: the tied value `1/4` after history `[1/2, 1/4]` triggers no
write and leaves the record unchanged. -/
theorem claim2_save_iff_strict_improvement_witness :
    ¬ (∀ u ∈ [(1 : ℚ)/2, 1/4], (1 : ℚ)/4 < u) ∧
      step (runLowest lowestInit [(1 : ℚ)/2, 1/4]) ((1 : ℚ)/4) =
        (runLowest lowestInit [(1 : ℚ)/2, 1/4], false) := by
  have h : ¬ (∀ u ∈ [(1 : ℚ)/2, 1/4], (1 : ℚ)/4 < u) := by
    intro hall
    exact absurd (hall ((1 : ℚ)/4) (by simp)) (lt_irrefl _)
  exact ⟨h, (claim2_save_iff_strict_improvement [(1 : ℚ)/2, 1/4] ((1 : ℚ)/4)).2 h⟩

/-- C10: an invocation whose caller is not a `laia.engine.Trainer` raises
`AssertionError` (the `Except.error` outcome), producing no record update and
no write. -/
theorem claim10_assert_caller (c : CallerKind) (lowest : WithTop ℚ) (v : ℚ)
    (h : c ≠ CallerKind.trainer) : call c lowest v = Except.error () := by
  cases c with
  | trainer => exact absurd rfl h
  | other => rfl

/-- Witness for C10 at a concrete non-`Trainer` caller. -/
theorem claim10_assert_caller_witness :
    CallerKind.other ≠ CallerKind.trainer ∧
      call CallerKind.other lowestInit 0 = Except.error () :=
  ⟨by decide, claim10_assert_caller CallerKind.other lowestInit 0 (by decide)⟩

end SaveModelCheckpointHook

namespace MeterStandardDeviation

/-- Modelled from the spec: the class `laia.engine.triggers.MeterStandardDeviation`
is not under `src/` (the script only constructs it, lines 212-218).  Per the spec it
"maintains a fixed-size sliding window (FIFO, bounded length `W`) of the most recent
values of a monitored metric".  Pushing a value appends it and drops the oldest
entries beyond capacity `W`. -/
def push (W : ℕ) (win : List ℚ) (v : ℚ) : List ℚ :=
  let w := win ++ [v]
  w.drop (w.length - W)

/-- The window contents after feeding the metric values `vs` in order into a
trigger with capacity `W`, starting empty. -/
def window (W : ℕ) (vs : List ℚ) : List ℚ :=
  vs.foldl (push W) []

/-- The mean of a list of rationals (`0` for the empty list). -/
def listMean (l : List ℚ) : ℚ := l.sum / l.length

/-- Modelled from the spec: the "sample standard deviation" squared of the window
values — sum of squared deviations from the mean divided by `n - 1` (`0` when
fewer than two values, where the sample statistic is degenerate). -/
def sampleVariance (l : List ℚ) : ℚ :=
  if l.length ≤ 1 then 0
  else (l.map (fun x => (x - listMean l) ^ 2)).sum / ((l.length : ℚ) - 1)

/-- `true` iff the real square root of `v` is at most `t`: executable form of
`Real.sqrt v ≤ t` over the rationals. -/
def sqrtLe (v t : ℚ) : Bool := decide (0 ≤ t) && decide (v ≤ t * t)

theorem sqrtLe_iff (v t : ℚ) : sqrtLe v t = true ↔ Real.sqrt (v : ℝ) ≤ (t : ℝ) := by
  rw [Real.sqrt_le_iff]
  simp only [sqrtLe, Bool.and_eq_true, decide_eq_true_eq]
  constructor
  · rintro ⟨ht, hv⟩
    refine ⟨by exact_mod_cast ht, ?_⟩
    have h2 : (v : ℝ) ≤ (t : ℝ) * t := by exact_mod_cast hv
    rw [sq]
    exact h2
  · rintro ⟨ht, hv⟩
    refine ⟨by exact_mod_cast ht, ?_⟩
    rw [sq] at hv
    exact_mod_cast hv

/-- Modelled from the spec: the trigger "fires when the window is full AND the
sample standard deviation of the window values falls at or below a configured
threshold"; "before the window fills, never fires". -/
def fires (W : ℕ) (T : ℚ) (win : List ℚ) : Bool :=
  (win.length == W) && sqrtLe (sampleVariance win) T

theorem window_append (W : ℕ) (vs : List ℚ) (v : ℚ) :
    window W (vs ++ [v]) = push W (window W vs) v := by
  simp [window, List.foldl_append]

theorem window_eq_drop (W : ℕ) (vs : List ℚ) :
    window W vs = vs.drop (vs.length - W) := by
  induction vs using List.reverseRecOn with
  | nil => simp [window]
  | append_singleton vs v ih =>
      rw [window_append, ih, push]
      simp only [List.length_append, List.length_drop, List.length_singleton]
      rcases Nat.lt_or_ge vs.length W with h | h
      · have h1 : vs.length - W = 0 := by omega
        have h2 : vs.length - (vs.length - W) + 1 - W = 0 := by omega
        have h3 : vs.length + 1 - W = 0 := by omega
        simp [h1, h2, h3]
      · rcases Nat.eq_zero_or_pos W with hW | hW
        · subst hW
          simp
        · have h2 : vs.length - (vs.length - W) + 1 - W = 1 := by omega
          have h3 : vs.length + 1 - W = (vs.length - W) + 1 := by omega
          rw [h2, h3]
          have hlen : 1 ≤ (vs.drop (vs.length - W)).length := by
            rw [List.length_drop]; omega
          rw [List.drop_append_of_le_length hlen,
              List.drop_append_of_le_length (by omega : vs.length - W + 1 ≤ vs.length)]
          rw [List.drop_drop]

theorem window_length (W : ℕ) (vs : List ℚ) :
    (window W vs).length = min vs.length W := by
  rw [window_eq_drop, List.length_drop]
  omega

/-- C3: a `MeterStandardDeviation` trigger with window size `W` and threshold `T`
never fires while fewer than `W` values have been observed; once at least `W`
values have been observed, it fires iff the sample standard deviation of the `W`
most recent values is at most `T`. -/
theorem claim3_fires_iff (W : ℕ) (T : ℚ) (vs : List ℚ) :
    (vs.length < W → fires W T (window W vs) = false) ∧
      (W ≤ vs.length →
        (fires W T (window W vs) = true ↔
          Real.sqrt ((sampleVariance (vs.drop (vs.length - W)) : ℚ) : ℝ) ≤ (T : ℝ))) := by
  constructor
  · intro h
    have hlen : ¬ ((window W vs).length = W) := by rw [window_length]; omega
    simp [fires, hlen]
  · intro h
    have hlen : (window W vs).length = W := by rw [window_length]; omega
    rw [← sqrtLe_iff, fires, hlen, beq_self_eq_true, Bool.true_and, window_eq_drop]

/-- Witness for C3, exercising both the partial-window and the full-window case. -/
theorem claim3_fires_iff_witness :
    (([(1 : ℚ)/2]).length < 2 ∧ fires 2 0 (window 2 [(1 : ℚ)/2]) = false) ∧
      (1 ≤ ([(2 : ℚ)]).length ∧
        (fires 1 0 (window 1 [(2 : ℚ)]) = true ↔
          Real.sqrt ((sampleVariance (([(2 : ℚ)]).drop (([(2 : ℚ)]).length - 1)) : ℚ) : ℝ)
            ≤ ((0 : ℚ) : ℝ))) :=
  ⟨⟨by simp, (claim3_fires_iff 2 0 [(1 : ℚ)/2]).1 (by simp)⟩,
    ⟨by simp, (claim3_fires_iff 1 0 [(2 : ℚ)]).2 (by simp)⟩⟩

/-- C4: with window size 3 and threshold 1/100, feeding the metric values
`[1/2, 1/5, 1/20, 1/25, 9/200]` (= `[0.50, 0.20, 0.05, 0.04, 0.045]`) in order,
the trigger does not fire after any of the first four values and fires after the
fifth (window `[1/20, 1/25, 9/200]`, sample standard deviation `1/200 ≤ 1/100`). -/
theorem claim4_scenario :
    fires 3 (1/100) (window 3 [(1 : ℚ)/2]) = false ∧
      fires 3 (1/100) (window 3 [(1 : ℚ)/2, 1/5]) = false ∧
      fires 3 (1/100) (window 3 [(1 : ℚ)/2, 1/5, 1/20]) = false ∧
      fires 3 (1/100) (window 3 [(1 : ℚ)/2, 1/5, 1/20, 1/25]) = false ∧
      fires 3 (1/100) (window 3 [(1 : ℚ)/2, 1/5, 1/20, 1/25, 9/200]) = true := by
  refine ⟨?_, ?_, ?_, ?_, ?_⟩ <;>
    norm_num [fires, window, push, sampleVariance, listMean, sqrtLe]

end MeterStandardDeviation

namespace Triggers

/-- Modelled from the spec: `laia.engine.triggers.Any` is not under `src/` (the
script only constructs it, line 220).  Per the spec a composite is "constructed
from an arbitrary set of triggers; fires iff at least one member fires when
evaluated".  A trigger is a Boolean predicate over the training state, here the
completed-epoch counter. -/
def Any (ts : List (ℕ → Bool)) (s : ℕ) : Bool := ts.any (fun t => t s)

/-- Modelled from the spec: `laia.engine.triggers.NumEpochs` is not under `src/`
(the script only constructs it, line 210).  Per the spec it "fires once the
trainer's completed-epoch counter reaches a configured maximum". -/
def NumEpochs (maxEpochs : ℕ) (epochs : ℕ) : Bool := decide (maxEpochs ≤ epochs)

/-- C5: the composite `Any` fires iff at least one constituent fires; with a
`NumEpochs` trigger among its members, the epoch-count trigger stays silent
before the configured maximum and the composite fires at the epoch boundary
where the counter first reaches it. -/
theorem claim5_any_fires (ts : List (ℕ → Bool)) (e maxE : ℕ) :
    (Any ts e = true ↔ ∃ t ∈ ts, t e = true) ∧
      (NumEpochs maxE ∈ ts →
        (e < maxE → NumEpochs maxE e = false) ∧ Any ts maxE = true) := by
  constructor
  · simp [Any, List.any_eq_true]
  · intro hmem
    constructor
    · intro he
      simp only [NumEpochs, decide_eq_false_iff_not]
      omega
    · simp only [Any, List.any_eq_true]
      exact ⟨NumEpochs maxE, hmem, by simp [NumEpochs]⟩

/-- Witness for C5 with the single member `NumEpochs 2`: silent at epoch 1,
the composite fires at epoch 2. -/
theorem claim5_any_fires_witness :
    NumEpochs 2 ∈ [NumEpochs 2] ∧ NumEpochs 2 1 = false ∧
      Any [NumEpochs 2] 2 = true := by
  have hmem : NumEpochs 2 ∈ [NumEpochs 2] := List.mem_singleton.mpr rfl
  have h := (claim5_any_fires [NumEpochs 2] 1 2).2 hmem
  exact ⟨hmem, h.1 (by omega), h.2⟩

end Triggers

/-- A Python object as relevant to checkpoint records: a numeric leaf standing
for an arbitrary state value (tensor, scalar, ...), or a string-keyed
dictionary. -/
inductive PyVal where
  | num : ℕ → PyVal
  | dict : List (String × PyVal) → PyVal

namespace TrainCtc

/-- The checkpoint record written by the `torch.save` calls (lines 34-37 and
235-238): `{'model': model_state, 'optimizer': optimizer_state}`. -/
def checkpointRecord (modelState optimState : PyVal) : List (String × PyVal) :=
  [("model", modelState), ("optimizer", optimState)]

/-- The final save after training (lines 233-238): `if args.save_checkpoint:`
write the record.  Python string truthiness: the write happens iff the string
is non-empty.  Returns the written record, or `none` when nothing is written. -/
def finalSave (saveCheckpoint : String) (modelState optimState : PyVal) :
    Option (List (String × PyVal)) :=
  if saveCheckpoint = "" then none
  else some (checkpointRecord modelState optimState)

/-- Counterexample to C6 as stated: with `--save_checkpoint ''` the program
writes no checkpoint at the end of training, so the final write is not
unconditional. -/
theorem claim6_counterexample :
    finalSave "" (PyVal.num 0) (PyVal.num 1) = none := rfl

/-- C6 (amended): at the end of training, whenever the `save_checkpoint`
argument is non-empty (as it is by default, `model.ckpt`), the program writes a
checkpoint holding the model weight state and the optimizer state. -/
theorem claim6_final_save (s : String) (m o : PyVal) (h : s ≠ "") :
    finalSave s m o = some (checkpointRecord m o) := by
  simp [finalSave, h]

/-- Witness for the amended C6 at the default checkpoint path. -/
theorem claim6_final_save_witness :
    "model.ckpt" ≠ "" ∧
      finalSave "model.ckpt" (PyVal.num 0) (PyVal.num 1) =
        some (checkpointRecord (PyVal.num 0) (PyVal.num 1)) :=
  ⟨by simp, claim6_final_save "model.ckpt" (PyVal.num 0) (PyVal.num 1) (by simp)⟩

/-- The `--load_checkpoint` logic (lines 141-148): when both the `'model'` and
the `'optimizer'` key are present, each sub-record is loaded into the model
resp. the optimizer; otherwise the whole record is loaded as model state and
the optimizer is untouched.  Returns the pair (new model state, new optimizer
state) given the loaded record and the optimizer's current state. -/
def loadCheckpoint (saved : List (String × PyVal)) (optimState : PyVal) :
    PyVal × PyVal :=
  match saved.lookup "model", saved.lookup "optimizer" with
  | some m, some o => (m, o)
  | _, _ => (PyVal.dict saved, optimState)

theorem loadCheckpoint_no_model (saved : List (String × PyVal))
    (optimState : PyVal) (h : saved.lookup "model" = none) :
    loadCheckpoint saved optimState = (PyVal.dict saved, optimState) := by
  unfold loadCheckpoint
  rw [h]

theorem loadCheckpoint_no_optim (saved : List (String × PyVal))
    (optimState : PyVal) (h : saved.lookup "optimizer" = none) :
    loadCheckpoint saved optimState = (PyVal.dict saved, optimState) := by
  unfold loadCheckpoint
  rw [h]
  rcases h1 : saved.lookup "model" with _ | m <;> rfl

theorem loadCheckpoint_both (saved : List (String × PyVal)) (optimState : PyVal)
    (m o : PyVal) (hm : saved.lookup "model" = some m)
    (ho : saved.lookup "optimizer" = some o) :
    loadCheckpoint saved optimState = (m, o) := by
  unfold loadCheckpoint
  rw [hm, ho]

/-- C9: a loaded record lacking the `'model'` key or the `'optimizer'` key is
loaded wholesale as model parameter state and the optimizer state is left
unchanged; only a record with both keys updates the optimizer. -/
theorem claim9_partial_record (saved : List (String × PyVal)) (optimState : PyVal) :
    ((saved.lookup "model" = none ∨ saved.lookup "optimizer" = none) →
        loadCheckpoint saved optimState = (PyVal.dict saved, optimState)) ∧
      (∀ m o, saved.lookup "model" = some m → saved.lookup "optimizer" = some o →
        loadCheckpoint saved optimState = (m, o)) := by
  refine ⟨?_, ?_⟩
  · rintro (h | h)
    · exact loadCheckpoint_no_model saved optimState h
    · exact loadCheckpoint_no_optim saved optimState h
  · intro m o hm ho
    exact loadCheckpoint_both saved optimState m o hm ho

/-- Witness for C9: a record holding only a `'model'` entry leaves the
optimizer state unchanged and becomes the model state wholesale. -/
theorem claim9_partial_record_witness :
    (([("model", PyVal.num 3)] : List (String × PyVal)).lookup "model" = none ∨
        ([("model", PyVal.num 3)] : List (String × PyVal)).lookup "optimizer" = none) ∧
      loadCheckpoint [("model", PyVal.num 3)] (PyVal.num 7) =
        (PyVal.dict [("model", PyVal.num 3)], PyVal.num 7) := by
  have h : (([("model", PyVal.num 3)] : List (String × PyVal)).lookup "model" = none ∨
      ([("model", PyVal.num 3)] : List (String × PyVal)).lookup "optimizer" = none) :=
    Or.inr rfl
  exact ⟨h, (claim9_partial_record [("model", PyVal.num 3)] (PyVal.num 7)).1 h⟩

/-- Modelled from the spec: `torch.save`/`torch.load` (the serialization layer,
outside `src/`) "must support round-trip load" — loading a saved record yields
an equal record, so serialization followed by deserialization is the identity
on checkpoint records. -/
def torchRoundTrip (d : List (String × PyVal)) : List (String × PyVal) := d

/-- C7: loading (as done at startup via `--load_checkpoint`) a saved checkpoint
record restores exactly the model parameter state and the optimizer state that
were saved. -/
theorem claim7_round_trip (m o optimState : PyVal) :
    loadCheckpoint (torchRoundTrip (checkpointRecord m o)) optimState = (m, o) :=
  loadCheckpoint_both _ _ m o rfl rfl

end TrainCtc

namespace TrainCtc

/-- Python truthiness of an optional integer argument: `None` and `0` are
falsy, every other integer is truthy. -/
def pyTruthyInt : Option ℤ → Bool
  | none => false
  | some n => decide (n ≠ 0)

/-- Python truthiness of an optional float argument: `None` and `0.0` are
falsy, every other value is truthy. -/
def pyTruthyRat : Option ℚ → Bool
  | none => false
  | some t => decide (t ≠ 0)

/-- Lines 208-210: `if args.max_epochs and args.max_epochs > 0:` appends the
`NumEpochs` trigger to the early-stop list. -/
def numEpochsRegistered (maxEpochs : Option ℤ) : Bool :=
  pyTruthyInt maxEpochs &&
    (match maxEpochs with
      | some n => decide (0 < n)
      | none => false)

/-- Lines 213-218: `if args.valid_cer_std_window_size and
args.valid_cer_std_threshold:` appends the `MeterStandardDeviation` trigger on
the validation CER meter to the early-stop list. -/
def validCerRegistered (windowSize : Option ℤ) (threshold : Option ℚ) : Bool :=
  pyTruthyInt windowSize && pyTruthyRat threshold

/-- C8: the epoch-count trigger is registered iff `max_epochs` is set and
positive, and the validation-CER plateau trigger is registered iff both the
window size and the threshold are set and nonzero; in particular a zero window
size or a zero threshold yields no plateau trigger. -/
theorem claim8_trigger_registration :
    (∀ me : Option ℤ, numEpochsRegistered me = true ↔ ∃ n, me = some n ∧ 0 < n) ∧
      (∀ (ws : Option ℤ) (th : Option ℚ),
        validCerRegistered ws th = true ↔
          (∃ w, ws = some w ∧ w ≠ 0) ∧ ∃ t, th = some t ∧ t ≠ 0) ∧
      (∀ (ws : Option ℤ) (th : Option ℚ),
        validCerRegistered ws (some 0) = false ∧
          validCerRegistered (some 0) th = false) := by
  refine ⟨?_, ?_, ?_⟩
  · intro me
    cases me with
    | none => simp [numEpochsRegistered, pyTruthyInt]
    | some n =>
        simp [numEpochsRegistered, pyTruthyInt]
        omega
  · intro ws th
    cases ws with
    | none => simp [validCerRegistered, pyTruthyInt]
    | some w =>
        cases th with
        | none => simp [validCerRegistered, pyTruthyInt, pyTruthyRat]
        | some t => simp [validCerRegistered, pyTruthyInt, pyTruthyRat]
  · intro ws th
    constructor
    · simp [validCerRegistered, pyTruthyRat]
    · simp [validCerRegistered, pyTruthyInt]

end TrainCtc
